import Mathlib

/-!
Shallow embedding of `src/ol/source/ogcTileUtil.js` (OGC API – Tiles
utilities of the OpenLayers repository): link selection for tile URL
templates, tile-matrix-set parsing, and the tile URL function.

JavaScript strings are embedded as `String`, JS numbers appearing in the
relevant code paths are only ever copied or negated, so they are embedded
as `Int`.  A JS value that may be `undefined` is embedded as an `Option`.
JS truthiness of a string variable (`!s`) is embedded explicitly: both
`undefined` and the empty string are falsy.  A thrown `Error` is embedded
as `Except.error` carrying the message.
-/

namespace OgcTileUtil

/-- A tileset link record (`Link` typedef in ogcTileUtil.js):
`rel` attribute, `href` URL and media `type`. -/
structure Link where
  rel : String
  href : String
  type : String
deriving DecidableEq, Repr

/-- Member names every plain JS object inherits from `Object.prototype`
(ECMAScript section 20.1.3 together with the Annex B legacy accessors the
mainstream engines implement).  Each inherited value is a function — or,
for `__proto__`, the prototype object — hence truthy, and property access
on an object literal falls through to them when the name is no own key. -/
def objectPrototypeMembers : List String :=
  ["constructor", "hasOwnProperty", "isPrototypeOf", "propertyIsEnumerable",
    "toLocaleString", "toString", "valueOf", "__proto__", "__defineGetter__",
    "__defineSetter__", "__lookupGetter__", "__lookupSetter__"]

/-- Embeds the truthiness of the object-literal lookup
`knownMapMediaTypes[link.type]` (ogcTileUtil.js line 116).  The literal has
the four raster media types as own keys with value `true`; being a plain
JS object it also inherits the `Object.prototype` members, all of whose
values are truthy, so the lookup is truthy for those names as well. -/
def knownMapMediaTypes (t : String) : Bool :=
  t = "image/png" || t = "image/jpeg" || t = "image/gif" || t = "image/webp" ||
    objectPrototypeMembers.contains t

/-- Embeds the truthiness of the object-literal lookup
`knownVectorMediaTypes[link.type]` (ogcTileUtil.js line 150): the two own
vector media-type keys plus the truthy inherited `Object.prototype`
members. -/
def knownVectorMediaTypes (t : String) : Bool :=
  t = "application/vnd.mapbox-vector-tile" || t = "application/geo+json" ||
    objectPrototypeMembers.contains t

/-- JS truthiness test `!s` for a string variable that may be `undefined`:
`undefined` and `""` are falsy. -/
def falsyStr : Option String → Bool
  | none => true
  | some s => s = ""

/-- Embeds `link.type.indexOf(mediaTypePrefix) === 0` — prefix test on the character
lists of the two strings. -/
def strStartsWith (p s : String) : Bool :=
  p.data.isPrefixOf s.data

/-- The scan loop of `getMapTileUrlTemplate` (ogcTileUtil.js lines 109–122).
State: the current `fallbackUrlTemplate`.  Returns the pair
(`tileUrlTemplate`, `fallbackUrlTemplate`) after the loop (the first
component is `some` exactly when the loop hit `break` on an exact
media-type match). -/
def mapScan (mediaType : Option String) (fallback : Option String) :
    List Link → Option String × Option String
  | [] => (none, fallback)
  | link :: rest =>
    if link.rel = "item" then
      if some link.type = mediaType then
        (some link.href, fallback)
      else if knownMapMediaTypes link.type then
        mapScan mediaType (some link.href) rest
      else if falsyStr fallback && strStartsWith "image/" link.type then
        mapScan mediaType (some link.href) rest
      else
        mapScan mediaType fallback rest
    else
      mapScan mediaType fallback rest

/-- The scan loop of `getVectorTileUrlTemplate` (ogcTileUtil.js lines
143–154).  Same as `mapScan` but with the vector known-type set and no
loose `image/` prefix fallback. -/
def vectorScan (mediaType : Option String) (fallback : Option String) :
    List Link → Option String × Option String
  | [] => (none, fallback)
  | link :: rest =>
    if link.rel = "item" then
      if some link.type = mediaType then
        (some link.href, fallback)
      else if knownVectorMediaTypes link.type then
        vectorScan mediaType (some link.href) rest
      else
        vectorScan mediaType fallback rest
    else
      vectorScan mediaType fallback rest

/-- The post-scan logic shared by both selectors (ogcTileUtil.js lines
124–132 and 156–164): if `tileUrlTemplate` is falsy, fall back to
`fallbackUrlTemplate` when that is truthy, else throw. -/
def finishTemplate : Option String × Option String → Except String String
  | (t, f) =>
    if falsyStr t then
      if falsyStr f then
        Except.error "Could not find \"item\" link"
      else
        Except.ok (f.getD "")
    else
      Except.ok (t.getD "")

/-- Embeds `getMapTileUrlTemplate(links, mediaType)` from ogcTileUtil.js. -/
def getMapTileUrlTemplate (links : List Link) (mediaType : Option String) :
    Except String String :=
  finishTemplate (mapScan mediaType none links)

/-- Embeds `getVectorTileUrlTemplate(links, mediaType)` from ogcTileUtil.js. -/
def getVectorTileUrlTemplate (links : List Link) (mediaType : Option String) :
    Except String String :=
  finishTemplate (vectorScan mediaType none links)

/-- The opening-brace character, `\x7b`. -/
def braceOpen : Char := '\x7b'

/-- The closing-brace character, `\x7d`. -/
def braceClose : Char := '\x7d'

/-- A word character in the sense of the JS regex class `\w` (no `u` flag):
ASCII letters, digits and underscore. -/
def isWordChar (c : Char) : Bool :=
  c.isAlphanum || c = '_'

/-- The replacement the replacer callback produces for a placeholder name:
`localContext[p]` when bound, else the string JS coerces `undefined` to. -/
def substValue (f : String → Option String) (name : String) : List Char :=
  match f name with
  | some v => v.data
  | none => "undefined".data

/-- Embeds `tileUrlTemplate.replace(re, ...)` where the regex matches an
opening brace, a lazy nonempty run of word characters, and a closing brace
(ogcTileUtil.js line 233).  Because word characters and the closing brace
are disjoint, the lazy run is exactly the maximal word-character run after
the opening brace, and a match succeeds exactly when the character ending
that run is the closing brace.  The first argument is the scanner state:
`none` outside a candidate match, `some acc` after an opening brace with
the word characters read so far in reverse.  On a failed candidate the
regex engine resumes at the next position; no match can start inside the
word-character run, so resuming at the character that ended the run is
faithful. -/
def substLoop (f : String → Option String) :
    Option (List Char) → List Char → List Char
  | none, [] => []
  | none, c :: rest =>
    if c = braceOpen then substLoop f (some []) rest
    else c :: substLoop f none rest
  | some acc, [] => braceOpen :: acc.reverse
  | some acc, c :: rest =>
    if isWordChar c then substLoop f (some (c :: acc)) rest
    else if c = braceClose then
      if acc.isEmpty then braceOpen :: braceClose :: substLoop f none rest
      else substValue f (String.mk acc.reverse) ++ substLoop f none rest
    else if c = braceOpen then braceOpen :: (acc.reverse ++ substLoop f (some []) rest)
    else braceOpen :: (acc.reverse ++ c :: substLoop f none rest)

/-- Template substitution over a whole string: every placeholder matched by
the regex is replaced by the context value of its name (the literal string
`undefined` when the name is unbound). -/
def substituteTemplate (f : String → Option String) (s : String) : String :=
  String.mk (substLoop f none s.data)

/-- A tile matrix (`TileMatrix` typedef in ogcTileUtil.js).  The numeric
fields are only ever copied or negated by the embedded code, so they are
carried as `Int`; `cornerOfOrigin` is optional in the wire format. -/
structure TileMatrix where
  id : String
  cellSize : Int
  pointOfOrigin : Int × Int
  cornerOfOrigin : Option String
  matrixWidth : Int
  matrixHeight : Int
  tileWidth : Int
  tileHeight : Int
deriving Repr

/-- Embeds the `BOTTOM_LEFT_ORIGIN` constant of ogcTileUtil.js. -/
def BOTTOM_LEFT_ORIGIN : String := "bottomLeft"

/-- Modelled from ECMAScript: the string `String.replace` coerces the
inherited member named `k` to when a placeholder named after an
`Object.prototype` member is substituted.  The text of a native function's
coercion is implementation-defined (it must conform to the NativeFunction
grammar, so it is in particular never the literal `undefined`); the form
the mainstream engines share is embedded, and `__proto__` coerces the
prototype object itself to its standard object string. -/
def protoMemberString (k : String) : String :=
  if k = "__proto__" then "[object Object]"
  else "function " ++ k ++ "() \x7b [native code] \x7d"

/-- The substitution context of `tileUrlFunction` (ogcTileUtil.js lines
226–231): the computed `tileMatrix`/`tileCol`/`tileRow` defaults with the
caller-supplied `context` entries assigned on top, as a lookup function.
Own values are carried as the strings JS coerces them to during
replacement.  The replacer reads `localContext[p]` (line 234): a plain JS
property access, so when `p` is no own key it falls through to the truthy
inherited `Object.prototype` members before coming up `undefined`. -/
def localContextLookup (matrix : TileMatrix) (col row : Int)
    (context : List (String × String)) (k : String) : Option String :=
  match context.lookup k with
  | some v => some v
  | none =>
    if k = "tileMatrix" then some matrix.id
    else if k = "tileCol" then some (toString col)
    else if k = "tileRow" then
      some (toString
        (if matrix.cornerOfOrigin = some BOTTOM_LEFT_ORIGIN then -row - 1 else row))
    else if objectPrototypeMembers.contains k then some (protoMemberString k)
    else none

/-- Modelled from the spec: `resolveUrl(base, url)` lives in ol/net.js,
which is not under src/; the spec only says the substituted, possibly
relative URL is resolved against the tile-set's base URL
(`resolve(base, relative) -> absoluteUrl`).  Embedded as: an absolute URL
is returned unchanged, a relative one is appended to the base. -/
def resolveUrl (base url : String) : String :=
  if strStartsWith "http://" url || strStartsWith "https://" url then url
  else base ++ url

/-- Embeds the closure `tileUrlFunction(tileCoord, pixelRatio, projection)`
of ogcTileUtil.js lines 218–238 (the last two parameters are unused by the
body and omitted).  An absent `tileCoord` yields `ok none` (the JS
`undefined` return); a zoom level that is no valid index into `matrices`
makes the JS body read a property of `undefined`, embedded as an error. -/
def tileUrlFunction (matrices : List TileMatrix) (tileUrlTemplate : String)
    (base : String) (context : List (String × String))
    (tileCoord : Option (Int × Int × Int)) : Except String (Option String) :=
  match tileCoord with
  | none => Except.ok none
  | some (z, col, row) =>
    match (if z < 0 then none else matrices[z.toNat]?) with
    | none => Except.error "TypeError: matrix is undefined"
    | some matrix =>
      Except.ok (some (resolveUrl base
        (substituteTemplate (localContextLookup matrix col row context)
          tileUrlTemplate)))

/-- Modelled from the spec: an ol/proj `Projection` (not under src/)
"exposes an axis-orientation descriptor string". -/
structure Projection where
  axisOrientation : String
deriving Repr

/-- A tile matrix set (`TileMatrixSet` typedef in ogcTileUtil.js). -/
structure TileMatrixSet where
  id : String
  crs : String
  tileMatrices : List TileMatrix

/-- Caller-supplied source description (`SourceInfo` typedef in
ogcTileUtil.js).  The `context` object is carried as an association list
with distinct keys, values as the strings JS coerces them to. -/
structure SourceInfo where
  url : String
  mediaType : Option String
  projection : Option Projection
  context : List (String × String)

/-- Modelled from the spec: the tile grid constructor
(ol/tilegrid/TileGrid.js, not under src/) "accepts parallel per-level
arrays (origins, resolutions, sizes, tile sizes)"; embedded as the record
of the four arrays handed to it. -/
structure TileGrid where
  origins : List (Int × Int)
  resolutions : List Int
  sizes : List (Int × Int)
  tileSizes : List (Int × Int)

/-- The module's `TileSetInfo` result: URL template, tile grid and tile
URL function. -/
structure TileSetInfo where
  urlTemplate : String
  grid : TileGrid
  urlFunction : Option (Int × Int × Int) → Except String (Option String)

/-- The projection-resolution prologue of `parseTileMatrixSet`
(ogcTileUtil.js lines 179–185): use the caller-supplied projection if
given, else consult the registry (`getProjection`, passed explicitly here
because ol/proj.js is an external collaborator); throw on an unknown CRS. -/
def resolveProjection (getProjection : String → Option Projection)
    (tileMatrixSet : TileMatrixSet) (sourceInfo : SourceInfo) :
    Except String Projection :=
  match sourceInfo.projection with
  | some projection => Except.ok projection
  | none =>
    match getProjection tileMatrixSet.crs with
    | some projection => Except.ok projection
    | none => Except.error ("Unsupported CRS: " ++ tileMatrixSet.crs)

/-- Embeds `parseTileMatrixSet` of ogcTileUtil.js lines 178–245: resolve
the projection, read the axis orientation (`substr(0, 2) !== 'en'` on its
descriptor string), build the four per-level arrays (origins swapped when
the order is backwards), and assemble the grid and the URL function. -/
def parseTileMatrixSet (getProjection : String → Option Projection)
    (tileMatrixSet : TileMatrixSet) (sourceInfo : SourceInfo)
    (tileUrlTemplate : String) : Except String TileSetInfo :=
  match resolveProjection getProjection tileMatrixSet sourceInfo with
  | Except.error e => Except.error e
  | Except.ok projection =>
    let backwards : Bool := projection.axisOrientation.data.take 2 != "en".data
    let matrices := tileMatrixSet.tileMatrices
    let origins := matrices.map fun matrix =>
      if backwards then (matrix.pointOfOrigin.2, matrix.pointOfOrigin.1)
      else matrix.pointOfOrigin
    let resolutions := matrices.map fun matrix => matrix.cellSize
    let sizes := matrices.map fun matrix => (matrix.matrixWidth, matrix.matrixHeight)
    let tileSizes := matrices.map fun matrix => (matrix.tileWidth, matrix.tileHeight)
    Except.ok
      { urlTemplate := tileUrlTemplate
        grid := { origins := origins, resolutions := resolutions,
                  sizes := sizes, tileSizes := tileSizes }
        urlFunction :=
          tileUrlFunction matrices tileUrlTemplate sourceInfo.url
            sourceInfo.context }

/-! ### Lemmas about the scan loops -/

/-- Scanning a concatenated list either breaks inside the first part or
continues into the second with the fallback state reached at the end of
the first part. -/
theorem mapScan_append (mt fb : Option String) (l₁ l₂ : List Link) :
    mapScan mt fb (l₁ ++ l₂) =
      if (mapScan mt fb l₁).1.isSome then mapScan mt fb l₁
      else mapScan mt (mapScan mt fb l₁).2 l₂ := by
  induction l₁ generalizing fb with
  | nil => simp [mapScan]
  | cons link rest ih =>
    simp only [List.cons_append, mapScan]
    split_ifs <;> simp_all

/-- When no link of the list is an exact media-type match on an `item`
relation, the scan never breaks. -/
theorem mapScan_fst_none (mt fb : Option String) (ls : List Link)
    (h : ∀ l ∈ ls, l.rel = "item" → some l.type ≠ mt) :
    (mapScan mt fb ls).1 = none := by
  induction ls generalizing fb with
  | nil => simp [mapScan]
  | cons link rest ih =>
    have hl := h link (by simp)
    simp only [mapScan]
    split_ifs with h1 h2
    · exact absurd h2 (hl h1)
    all_goals exact ih _ fun l hl' => h l (by simp [hl'])

/-- Once the fallback is truthy, a segment with no exact match and no
known-map-type `item` link leaves the scan state unchanged: in particular
a loosely matched `image/...` link is not accepted. -/
theorem mapScan_stable (mt fb : Option String) (ls : List Link)
    (h : ∀ l ∈ ls, l.rel = "item" →
      some l.type ≠ mt ∧ knownMapMediaTypes l.type = false)
    (hfb : falsyStr fb = false) :
    mapScan mt fb ls = (none, fb) := by
  induction ls with
  | nil => simp [mapScan]
  | cons link rest ih =>
    have hl := h link (by simp)
    have ih' := ih fun l hl' => h l (by simp [hl'])
    simp only [mapScan]
    split_ifs with h1 h2 h3 h4
    · exact absurd h2 ((hl h1).1)
    · exact absurd h3 (by simp [(hl h1).2])
    · rw [hfb] at h4
      exact absurd h4 (by simp)
    · exact ih'
    · exact ih'

/-- A segment in which no `item` link is an exact match, of known map type,
or of a type starting with `image/`, leaves the scan state unchanged
whatever the fallback is. -/
theorem mapScan_no_candidates (mt fb : Option String) (ls : List Link)
    (h : ∀ l ∈ ls, l.rel = "item" →
      some l.type ≠ mt ∧ knownMapMediaTypes l.type = false ∧
        strStartsWith "image/" l.type = false) :
    mapScan mt fb ls = (none, fb) := by
  induction ls with
  | nil => simp [mapScan]
  | cons link rest ih =>
    have hl := h link (by simp)
    have ih' := ih fun l hl' => h l (by simp [hl'])
    simp only [mapScan]
    split_ifs with h1 h2 h3 h4
    · exact absurd h2 ((hl h1).1)
    · exact absurd h3 (by simp [(hl h1).2.1])
    · rw [(hl h1).2.2] at h4
      exact absurd h4 (by simp)
    · exact ih'
    · exact ih'

/-- Concatenation lemma for the vector scan. -/
theorem vectorScan_append (mt fb : Option String) (l₁ l₂ : List Link) :
    vectorScan mt fb (l₁ ++ l₂) =
      if (vectorScan mt fb l₁).1.isSome then vectorScan mt fb l₁
      else vectorScan mt (vectorScan mt fb l₁).2 l₂ := by
  induction l₁ generalizing fb with
  | nil => simp [vectorScan]
  | cons link rest ih =>
    simp only [List.cons_append, vectorScan]
    split_ifs <;> simp_all

/-- When no link of the list is an exact media-type match on an `item`
relation, the vector scan never breaks. -/
theorem vectorScan_fst_none (mt fb : Option String) (ls : List Link)
    (h : ∀ l ∈ ls, l.rel = "item" → some l.type ≠ mt) :
    (vectorScan mt fb ls).1 = none := by
  induction ls generalizing fb with
  | nil => simp [vectorScan]
  | cons link rest ih =>
    have hl := h link (by simp)
    simp only [vectorScan]
    split_ifs with h1 h2
    · exact absurd h2 (hl h1)
    all_goals exact ih _ fun l hl' => h l (by simp [hl'])

/-- A segment in which no `item` link is an exact match or of known vector
type leaves the vector scan state unchanged: there is no looser fallback
of any kind. -/
theorem vectorScan_stable (mt fb : Option String) (ls : List Link)
    (h : ∀ l ∈ ls, l.rel = "item" →
      some l.type ≠ mt ∧ knownVectorMediaTypes l.type = false) :
    vectorScan mt fb ls = (none, fb) := by
  induction ls with
  | nil => simp [vectorScan]
  | cons link rest ih =>
    have hl := h link (by simp)
    have ih' := ih fun l hl' => h l (by simp [hl'])
    simp only [vectorScan]
    split_ifs with h1 h2 h3
    · exact absurd h2 ((hl h1).1)
    · exact absurd h3 (by simp [(hl h1).2])
    · exact ih'
    · exact ih'

/-- The post-scan logic returns the template found by the break whenever
that template is truthy. -/
theorem finishTemplate_ok (h f' : Option String) (s : String) (hs : s ≠ "")
    (ht : h = some s) : finishTemplate (h, f') = Except.ok s := by
  subst ht
  simp [finishTemplate, falsyStr, hs]

/-- The post-scan logic returns the fallback when the scan found no exact
match and the fallback is truthy. -/
theorem finishTemplate_fallback (s : String) (hs : s ≠ "") :
    finishTemplate ((none : Option String), some s) = Except.ok s := by
  simp [finishTemplate, falsyStr, hs]

/-- When the segment after the designated link holds no exact match and no
known-map-type `item` link, and the designated known-type link has a
truthy href, the map selector returns that link's href. -/
theorem getMap_last_known (mt : Option String) (pre post : List Link) (k : Link)
    (hex : ∀ l ∈ pre ++ k :: post, l.rel = "item" → some l.type ≠ mt)
    (hk : k.rel = "item") (hkt : knownMapMediaTypes k.type = true)
    (hkh : k.href ≠ "")
    (hpost : ∀ l ∈ post, l.rel = "item" → knownMapMediaTypes l.type = false) :
    getMapTileUrlTemplate (pre ++ k :: post) mt = Except.ok k.href := by
  have hkx : some k.type ≠ mt := hex k (by simp) hk
  show finishTemplate (mapScan mt none (pre ++ k :: post)) = _
  rw [mapScan_append, mapScan_fst_none mt none pre (fun l hl => hex l (by simp [hl]))]
  have hstep : ∀ fb, mapScan mt fb (k :: post) = (none, some k.href) := by
    intro fb
    simp only [mapScan, if_pos hk, if_neg hkx, if_pos hkt]
    exact mapScan_stable mt (some k.href) post
      (fun l hl hi => ⟨hex l (by simp [hl]) hi, hpost l hl hi⟩)
      (by simp [falsyStr, hkh])
  rw [if_neg (by simp), hstep]
  exact finishTemplate_fallback k.href hkh

/-- Vector analogue of `getMap_last_known`. -/
theorem getVector_last_known (mt : Option String) (pre post : List Link) (k : Link)
    (hex : ∀ l ∈ pre ++ k :: post, l.rel = "item" → some l.type ≠ mt)
    (hk : k.rel = "item") (hkt : knownVectorMediaTypes k.type = true)
    (hkh : k.href ≠ "")
    (hpost : ∀ l ∈ post, l.rel = "item" → knownVectorMediaTypes l.type = false) :
    getVectorTileUrlTemplate (pre ++ k :: post) mt = Except.ok k.href := by
  have hkx : some k.type ≠ mt := hex k (by simp) hk
  show finishTemplate (vectorScan mt none (pre ++ k :: post)) = _
  rw [vectorScan_append, vectorScan_fst_none mt none pre (fun l hl => hex l (by simp [hl]))]
  have hstep : ∀ fb, vectorScan mt fb (k :: post) = (none, some k.href) := by
    intro fb
    simp only [vectorScan, if_pos hk, if_neg hkx, if_pos hkt]
    exact vectorScan_stable mt (some k.href) post
      (fun l hl hi => ⟨hex l (by simp [hl]) hi, hpost l hl hi⟩)
  rw [if_neg (by simp), hstep]
  exact finishTemplate_fallback k.href hkh

/-! ### Claims about the link selectors -/

/-- C1, amended: for every link list of the form `pre ++ x :: post` where
`pre` holds no exact media-type match on an `item` relation and `x` is an
`item` link whose type equals the preferred media type and whose href is
nonempty, both selectors return `x`'s href, regardless of `x`'s position
and of earlier `item` links of known fallback types.  (The nonemptiness
condition is forced: with an empty href the JS truthiness check
`if (!tileUrlTemplate)` discards the exact match.) -/
theorem C1_exact_match_wins (mt : Option String) (pre post : List Link) (x : Link)
    (hpre : ∀ l ∈ pre, l.rel = "item" → some l.type ≠ mt)
    (hx : x.rel = "item") (ht : some x.type = mt) (hh : x.href ≠ "") :
    getMapTileUrlTemplate (pre ++ x :: post) mt = Except.ok x.href ∧
    getVectorTileUrlTemplate (pre ++ x :: post) mt = Except.ok x.href := by
  constructor
  · show finishTemplate (mapScan mt none (pre ++ x :: post)) = _
    rw [mapScan_append, mapScan_fst_none mt none pre hpre, if_neg (by simp)]
    rw [show mapScan mt (mapScan mt none pre).2 (x :: post) =
        (some x.href, (mapScan mt none pre).2) from by simp [mapScan, hx, ht]]
    exact finishTemplate_ok _ _ _ hh rfl
  · show finishTemplate (vectorScan mt none (pre ++ x :: post)) = _
    rw [vectorScan_append, vectorScan_fst_none mt none pre hpre, if_neg (by simp)]
    rw [show vectorScan mt (vectorScan mt none pre).2 (x :: post) =
        (some x.href, (vectorScan mt none pre).2) from by simp [vectorScan, hx, ht]]
    exact finishTemplate_ok _ _ _ hh rfl

/-- C1, counterexample to the claim as stated: the list holds exactly one
link, an `item` link of the caller's preferred media type with href `""`;
instead of returning that href the selector throws, because the JS
truthiness check treats the empty template as absent. -/
theorem C1_counterexample :
    getMapTileUrlTemplate [⟨"item", "", "image/png"⟩] (some "image/png") =
      Except.error "Could not find \"item\" link" ∧
    getMapTileUrlTemplate [⟨"item", "", "image/png"⟩] (some "image/png") ≠
      Except.ok "" :=
  ⟨rfl, fun h => nomatch h⟩

/-- C1 witness: a preferred `image/jpeg` link in second position wins over
an earlier known-type `image/png` link, for both selectors. -/
theorem C1_witness :
    getMapTileUrlTemplate
      [⟨"item", "a", "image/png"⟩, ⟨"item", "b", "image/jpeg"⟩]
      (some "image/jpeg") = Except.ok "b" ∧
    getVectorTileUrlTemplate
      [⟨"item", "a", "image/png"⟩, ⟨"item", "b", "image/jpeg"⟩]
      (some "image/jpeg") = Except.ok "b" :=
  C1_exact_match_wins (some "image/jpeg") [⟨"item", "a", "image/png"⟩] []
    ⟨"item", "b", "image/jpeg"⟩ (by decide) rfl rfl (by decide)

/-- C2, amended: when no exact-match `item` link exists, a later loosely
matched `image/...` link never replaces a fallback already set by a link
the known-type lookup accepts (the documented raster set, or an inherited
`Object.prototype` member name) whose href is nonempty: the selector
returns that link's href.  (Nonemptiness is forced: an empty recorded
fallback is falsy in JS, so `!fallbackUrlTemplate` lets a later loose link
overwrite it.)  The hypothesis on `post` excludes links the lookup
accepts — including `Object.prototype` member names such as `toString`,
which the program's known-type branch would let overwrite the fallback. -/
theorem C2_known_fallback_not_replaced (mt : Option String)
    (pre post : List Link) (k : Link)
    (hex : ∀ l ∈ pre ++ k :: post, l.rel = "item" → some l.type ≠ mt)
    (hk : k.rel = "item") (hkt : knownMapMediaTypes k.type = true)
    (hkh : k.href ≠ "")
    (hpost : ∀ l ∈ post, l.rel = "item" → knownMapMediaTypes l.type = false) :
    getMapTileUrlTemplate (pre ++ k :: post) mt = Except.ok k.href :=
  getMap_last_known mt pre post k hex hk hkt hkh hpost

/-- C2, counterexample to the claim as stated: the known-type `image/png`
link has href `""`; the recorded fallback is falsy, so the later loose
`image/custom` link does replace it and the selector returns `"b"`. -/
theorem C2_counterexample :
    getMapTileUrlTemplate
      [⟨"item", "", "image/png"⟩, ⟨"item", "b", "image/custom"⟩] none =
      Except.ok "b" ∧
    getMapTileUrlTemplate
      [⟨"item", "", "image/png"⟩, ⟨"item", "b", "image/custom"⟩] none ≠
      Except.ok "" :=
  ⟨rfl, by intro h; injection h with h'; revert h'; decide⟩

/-- C2 witness: a known-type `image/png` fallback with nonempty href is not
replaced by a later loose `image/custom` link. -/
theorem C2_witness :
    getMapTileUrlTemplate
      [⟨"item", "a", "image/png"⟩, ⟨"item", "b", "image/custom"⟩] none =
      Except.ok "a" :=
  C2_known_fallback_not_replaced none [] [⟨"item", "b", "image/custom"⟩]
    ⟨"item", "a", "image/png"⟩ (by decide) rfl rfl (by decide) (by decide)

/-- C3, amended: the vector selector does no prefix matching: when no
`item` link is an exact media-type match and none has a type the
object-literal lookup `knownVectorMediaTypes[type]` accepts — the two own
vector media types, or a name inherited from `Object.prototype` such as
`toString`, for which the lookup is truthy — it throws, whatever prefixes
the present types share with known vector types.  (The inherited-name
condition is forced: the claim as stated admits an `item` link typed
`constructor`, which the program accepts as a known-type fallback.) -/
theorem C3_vector_no_prefix_fallback (links : List Link) (mt : Option String)
    (h : ∀ l ∈ links, l.rel = "item" →
      some l.type ≠ mt ∧ knownVectorMediaTypes l.type = false) :
    getVectorTileUrlTemplate links mt =
      Except.error "Could not find \"item\" link" := by
  show finishTemplate (vectorScan mt none links) = _
  rw [vectorScan_stable mt none links h]
  rfl

/-- C3, counterexample to the claim as stated: an `item` link typed
`constructor` — neither an exact match nor one of the two known vector
media types — is accepted as a known-type fallback, because the JS lookup
`knownVectorMediaTypes['constructor']` finds the inherited truthy
`Object.prototype.constructor`; the selector returns its href instead of
throwing. -/
theorem C3_counterexample :
    getVectorTileUrlTemplate [⟨"item", "h", "constructor"⟩]
      (some "application/json") = Except.ok "h" ∧
    getVectorTileUrlTemplate [⟨"item", "h", "constructor"⟩]
      (some "application/json") ≠
        Except.error "Could not find \"item\" link" :=
  ⟨rfl, fun h => nomatch h⟩

/-- C3 witness: a link whose type is a strict prefix of the known type
`application/geo+json` is not accepted. -/
theorem C3_witness :
    getVectorTileUrlTemplate [⟨"item", "u", "application/geo+js"⟩]
      (some "application/json") =
      Except.error "Could not find \"item\" link" :=
  C3_vector_no_prefix_fallback [⟨"item", "u", "application/geo+js"⟩]
    (some "application/json") (by decide)

/-- C4, amended: on the empty list, and on every list in which no `item`
link is an exact match or fallback-eligible for the respective selector —
fallback-eligible meaning the documented known sets, a type beginning with
`image/` for the map selector, or any type named after an inherited
`Object.prototype` member, which the object-literal lookups accept as
known — both selectors raise an error whose message contains the string
`item`.  (The inherited-name condition is forced: on a lone `item` link
typed `toString` both selectors record a truthy inherited-property
fallback and return its href instead of erroring.) -/
theorem C4_no_item_link_error (links : List Link) (mt : Option String)
    (h : ∀ l ∈ links, l.rel = "item" →
      some l.type ≠ mt ∧ knownMapMediaTypes l.type = false ∧
        strStartsWith "image/" l.type = false ∧
        knownVectorMediaTypes l.type = false) :
    ∃ msg, getMapTileUrlTemplate links mt = Except.error msg ∧
      getVectorTileUrlTemplate links mt = Except.error msg ∧
      ∃ a b, msg = a ++ "item" ++ b := by
  refine ⟨"Could not find \"item\" link", ?_, ?_,
    "Could not find \"", "\" link", by decide⟩
  · show finishTemplate (mapScan mt none links) = _
    rw [mapScan_no_candidates mt none links
      (fun l hl hi => ⟨(h l hl hi).1, (h l hl hi).2.1, (h l hl hi).2.2.1⟩)]
    rfl
  · show finishTemplate (vectorScan mt none links) = _
    rw [vectorScan_stable mt none links
      (fun l hl hi => ⟨(h l hl hi).1, (h l hl hi).2.2.2⟩)]
    rfl

/-- C4, counterexample to the claim as stated: a single `item` link typed
`toString` matches no preferred type and none of the documented fallback
rules (not a documented known type, no `image/` prefix, no known vector
type), yet both selectors return its href: `knownMapMediaTypes['toString']`
and `knownVectorMediaTypes['toString']` find the inherited truthy
`Object.prototype.toString`, so the link is recorded as a known-type
fallback instead of the selectors erroring. -/
theorem C4_counterexample :
    getMapTileUrlTemplate [⟨"item", "h", "toString"⟩] (some "image/png") =
      Except.ok "h" ∧
    getVectorTileUrlTemplate [⟨"item", "h", "toString"⟩] (some "image/png") =
      Except.ok "h" ∧
    strStartsWith "image/" "toString" = false :=
  ⟨rfl, rfl, rfl⟩

/-- C4 witness: both selectors fail on the empty link list with a message
containing `item`. -/
theorem C4_witness :
    ∃ msg, getMapTileUrlTemplate [] (some "image/png") = Except.error msg ∧
      getVectorTileUrlTemplate [] (some "image/png") = Except.error msg ∧
      ∃ a b, msg = a ++ "item" ++ b :=
  C4_no_item_link_error [] (some "image/png") (by decide)

/-- C10, amended: with no exact match and at least two `item` links whose
types the known-type object lookup accepts — the documented known fallback
set plus, an artifact of the object-literal membership test, any type
named after an inherited `Object.prototype` member — each selector returns
the href of the last such accepted link in scan order, provided that href
is nonempty.  (Both conditions are forced: an empty last-recorded fallback
is falsy, so the post-scan check throws or a later loose link may
overwrite it; and a later `item` link typed e.g. `valueOf` is itself
accepted by the lookup and overwrites the fallback.)  The list is
presented as `pre ++ k :: post` with `k` the last accepted link and at
least one accepted link in `pre`. -/
theorem C10_last_known_wins (mt : Option String) (pre post : List Link)
    (k : Link)
    (hex : ∀ l ∈ pre ++ k :: post, l.rel = "item" → some l.type ≠ mt)
    (hk : k.rel = "item") (hkh : k.href ≠ "") :
    ((∃ j ∈ pre, j.rel = "item" ∧ knownMapMediaTypes j.type = true) →
      knownMapMediaTypes k.type = true →
      (∀ l ∈ post, l.rel = "item" → knownMapMediaTypes l.type = false) →
      getMapTileUrlTemplate (pre ++ k :: post) mt = Except.ok k.href) ∧
    ((∃ j ∈ pre, j.rel = "item" ∧ knownVectorMediaTypes j.type = true) →
      knownVectorMediaTypes k.type = true →
      (∀ l ∈ post, l.rel = "item" → knownVectorMediaTypes l.type = false) →
      getVectorTileUrlTemplate (pre ++ k :: post) mt = Except.ok k.href) :=
  ⟨fun _ hkt hpost => getMap_last_known mt pre post k hex hk hkt hkh hpost,
   fun _ hkt hpost => getVector_last_known mt pre post k hex hk hkt hkh hpost⟩

/-- C10, counterexample to the claim as stated, in two parts.  First: two
known-type `item` links, the last with href `""`; instead of returning
`""` the selector throws, because the recorded fallback is falsy.  Second:
two known-raster-type links followed by an `item` link typed `valueOf`,
which is not in the documented known set but is truthy in the object
lookup (`Object.prototype.valueOf` is inherited); the program returns its
href `"h"`, not the href `"b"` of the last documented-known-type link. -/
theorem C10_counterexample :
    getMapTileUrlTemplate
      [⟨"item", "a", "image/png"⟩, ⟨"item", "", "image/jpeg"⟩] none =
      Except.error "Could not find \"item\" link" ∧
    getMapTileUrlTemplate
      [⟨"item", "a", "image/png"⟩, ⟨"item", "", "image/jpeg"⟩] none ≠
      Except.ok "" ∧
    getMapTileUrlTemplate
      [⟨"item", "a", "image/png"⟩, ⟨"item", "b", "image/jpeg"⟩,
        ⟨"item", "h", "valueOf"⟩] none = Except.ok "h" ∧
    getMapTileUrlTemplate
      [⟨"item", "a", "image/png"⟩, ⟨"item", "b", "image/jpeg"⟩,
        ⟨"item", "h", "valueOf"⟩] none ≠ Except.ok "b" := by
  refine ⟨rfl, ?_, rfl, ?_⟩
  · intro h
    exact nomatch h
  · intro h
    injection h with h'
    revert h'
    decide

/-- C10 witness: with two known-type links (and none matching a preferred
type), both selectors return the href of the later one. -/
theorem C10_witness :
    getMapTileUrlTemplate
      [⟨"item", "a", "image/png"⟩, ⟨"item", "b", "image/jpeg"⟩] none =
      Except.ok "b" ∧
    getVectorTileUrlTemplate
      [⟨"item", "a", "application/geo+json"⟩,
        ⟨"item", "b", "application/vnd.mapbox-vector-tile"⟩] none =
      Except.ok "b" :=
  ⟨(C10_last_known_wins none [⟨"item", "a", "image/png"⟩] []
      ⟨"item", "b", "image/jpeg"⟩ (by decide) rfl (by decide)).1
      ⟨⟨"item", "a", "image/png"⟩, by decide⟩ rfl (by decide),
   (C10_last_known_wins none [⟨"item", "a", "application/geo+json"⟩] []
      ⟨"item", "b", "application/vnd.mapbox-vector-tile"⟩ (by decide) rfl
      (by decide)).2
      ⟨⟨"item", "a", "application/geo+json"⟩, by decide⟩ rfl (by decide)⟩

/-! ### Lemmas about template substitution -/

/-- Structure eta for strings. -/
theorem mk_data (s : String) : String.mk s.data = s := rfl

/-- Scanning a nonempty word-character run that is terminated by a closing
brace produces the replacement value of the accumulated name and resumes
after the brace. -/
theorem substLoop_name (f : String → Option String) (name : List Char)
    (hword : ∀ c ∈ name, isWordChar c = true) :
    ∀ (acc : List Char), acc.reverse ++ name ≠ [] → ∀ (rest : List Char),
      substLoop f (some acc) (name ++ braceClose :: rest) =
        substValue f (String.mk (acc.reverse ++ name)) ++
          substLoop f none rest := by
  induction name with
  | nil =>
    intro acc hne rest
    have hacc : acc ≠ [] := by
      intro h
      exact hne (by simp [h])
    have hw : isWordChar braceClose = false := by decide
    simp [substLoop, hacc, hw]
  | cons c cs ih =>
    intro acc hne rest
    have hc : isWordChar c = true := hword c (by simp)
    have hword' : ∀ d ∈ cs, isWordChar d = true :=
      fun d hd => hword d (by simp [hd])
    simp only [List.cons_append, substLoop, if_pos hc, List.append_eq]
    rw [ih hword' (c :: acc) (by simp) rest]
    congr 2
    simp

/-- Substituting a template that starts with a well-formed placeholder
rewrites the placeholder to its value and continues with the tail. -/
theorem substLoop_placeholder (f : String → Option String) (name : String)
    (rest : List Char) (hne : name ≠ "")
    (hword : ∀ c ∈ name.data, isWordChar c = true) :
    substLoop f none (braceOpen :: (name.data ++ braceClose :: rest)) =
      substValue f name ++ substLoop f none rest := by
  have hdata : name.data ≠ [] := by
    intro h
    exact hne (by cases name; simp_all)
  simp only [substLoop, if_pos rfl]
  rw [substLoop_name f name.data hword [] (by simpa) rest]
  simp [mk_data]

/-! ### Claims about the URL function -/

/-- C5: at a tile coordinate whose zoom level indexes a matrix, the URL
function substitutes `tileCol = col`, and `tileRow = -row - 1` when the
matrix has `cornerOfOrigin` bottomLeft, `tileRow = row` when it is topLeft
or unset (provided the caller context does not shadow those keys, which by
C6 would win); and an absent tile coordinate yields `undefined`, not a
failure. -/
theorem C5_row_flip_and_absent_coord (matrices : List TileMatrix)
    (template base : String) (context : List (String × String))
    (z col row : Int) (matrix : TileMatrix)
    (hz : 0 ≤ z) (hm : matrices[z.toNat]? = some matrix)
    (hcol : context.lookup "tileCol" = none)
    (hrow : context.lookup "tileRow" = none) :
    tileUrlFunction matrices template base context none = Except.ok none ∧
    tileUrlFunction matrices template base context (some (z, col, row)) =
      Except.ok (some (resolveUrl base
        (substituteTemplate (localContextLookup matrix col row context)
          template))) ∧
    localContextLookup matrix col row context "tileCol" =
      some (toString col) ∧
    (matrix.cornerOfOrigin = some "bottomLeft" →
      localContextLookup matrix col row context "tileRow" =
        some (toString (-row - 1))) ∧
    (matrix.cornerOfOrigin = some "topLeft" ∨ matrix.cornerOfOrigin = none →
      localContextLookup matrix col row context "tileRow" =
        some (toString row)) := by
  have h0 : ¬ z < 0 := by omega
  refine ⟨rfl, ?_, ?_, ?_, ?_⟩
  · simp [tileUrlFunction, h0, hm]
  · simp [localContextLookup, hcol]
  · intro hbl
    simp [localContextLookup, hrow, BOTTOM_LEFT_ORIGIN, hbl]
  · rintro (htl | htl) <;> simp [localContextLookup, hrow, BOTTOM_LEFT_ORIGIN, htl]

/-- C5 witness: with a bottomLeft matrix, row 2 substitutes as -3 and the
absent coordinate yields `undefined`; with the corner unset, row 7 is
unchanged. -/
theorem C5_witness :
    tileUrlFunction [⟨"0", 1, (0, 0), some "bottomLeft", 1, 1, 256, 256⟩]
      "t" "b" [] none = Except.ok none ∧
    localContextLookup ⟨"0", 1, (0, 0), some "bottomLeft", 1, 1, 256, 256⟩
      3 2 [] "tileCol" = some (toString (3 : Int)) ∧
    localContextLookup ⟨"0", 1, (0, 0), some "bottomLeft", 1, 1, 256, 256⟩
      3 2 [] "tileRow" = some (toString (-(2 : Int) - 1)) ∧
    localContextLookup ⟨"0", 1, (0, 0), none, 1, 1, 256, 256⟩
      5 7 [] "tileRow" = some (toString (7 : Int)) := by
  have h1 := C5_row_flip_and_absent_coord
    [⟨"0", 1, (0, 0), some "bottomLeft", 1, 1, 256, 256⟩] "t" "b" [] 0 3 2
    ⟨"0", 1, (0, 0), some "bottomLeft", 1, 1, 256, 256⟩
    (by decide) rfl rfl rfl
  have h2 := C5_row_flip_and_absent_coord
    [⟨"0", 1, (0, 0), none, 1, 1, 256, 256⟩] "t" "b" [] 0 5 7
    ⟨"0", 1, (0, 0), none, 1, 1, 256, 256⟩
    (by decide) rfl rfl rfl
  exact ⟨h1.1, h1.2.2.1, h1.2.2.2.1 rfl, h2.2.2.2.2 (Or.inr rfl)⟩

/-- C6, amended: during template substitution every placeholder whose name
is bound in the substitution context is replaced by that value and a
caller-supplied context entry wins over the computed defaults on key
collision; an unresolved placeholder becomes the literal string
`undefined` only when its name is not an inherited `Object.prototype`
member name — a placeholder named after an inherited member (`toString`,
`constructor`, `valueOf`, ...) substitutes the string coercion of the
inherited value instead, because `localContext[p]` follows the prototype
chain. -/
theorem C6_placeholder_substitution (f : String → Option String)
    (name rest v : String) (hne : name ≠ "")
    (hword : ∀ c ∈ name.data, isWordChar c = true) :
    (f name = some v →
      substituteTemplate f ("\x7b" ++ name ++ "\x7d" ++ rest) =
        v ++ substituteTemplate f rest) ∧
    (f name = none →
      substituteTemplate f ("\x7b" ++ name ++ "\x7d" ++ rest) =
        "undefined" ++ substituteTemplate f rest) ∧
    (∀ (matrix : TileMatrix) (col row : Int)
      (context : List (String × String)) (k val : String),
      context.lookup k = some val →
      localContextLookup matrix col row context k = some val) ∧
    (∀ (matrix : TileMatrix) (col row : Int)
      (context : List (String × String)) (k : String),
      context.lookup k = none →
      k ≠ "tileMatrix" → k ≠ "tileCol" → k ≠ "tileRow" →
      (objectPrototypeMembers.contains k = true →
        localContextLookup matrix col row context k =
          some (protoMemberString k)) ∧
      (objectPrototypeMembers.contains k = false →
        localContextLookup matrix col row context k = none)) := by
  have hdata : ("\x7b" ++ name ++ "\x7d" ++ rest).data =
      braceOpen :: (name.data ++ braceClose :: rest.data) := by
    simp [String.data_append, braceOpen, braceClose]
  have hmain : substituteTemplate f ("\x7b" ++ name ++ "\x7d" ++ rest) =
      String.mk (substValue f name ++ substLoop f none rest.data) := by
    show String.mk _ = _
    rw [hdata, substLoop_placeholder f name rest.data hne hword]
  refine ⟨?_, ?_, ?_, ?_⟩
  · intro hv
    rw [hmain]
    apply congrArg String.mk
    simp [substValue, hv, String.data_append, substituteTemplate]
  · intro hv
    rw [hmain]
    apply congrArg String.mk
    simp [substValue, hv, String.data_append, substituteTemplate]
  · intro matrix col row context k val hk
    simp [localContextLookup, hk]
  · intro matrix col row context k hk h1 h2 h3
    refine ⟨fun hp => ?_, fun hp => ?_⟩
    · have hp' : k ∈ objectPrototypeMembers := by simpa using hp
      simp [localContextLookup, hk, h1, h2, h3, hp']
    · have hp' : k ∉ objectPrototypeMembers := by simpa using hp
      simp [localContextLookup, hk, h1, h2, h3, hp']

/-- C6, counterexample to the claim as stated: the template is the single
placeholder `toString` with no caller context; the claim says the
unresolved placeholder substitutes the literal `undefined`, but the
program's `localContext['toString']` finds the inherited
`Object.prototype.toString`, which `String.replace` coerces to the
native-function string — never `undefined`. -/
theorem C6_counterexample :
    substituteTemplate
      (localContextLookup ⟨"0", 1, (0, 0), none, 1, 1, 256, 256⟩ 0 0 [])
      "\x7btoString\x7d" = protoMemberString "toString" ∧
    substituteTemplate
      (localContextLookup ⟨"0", 1, (0, 0), none, 1, 1, 256, 256⟩ 0 0 [])
      "\x7btoString\x7d" ≠ "undefined" :=
  ⟨rfl, by decide⟩

/-- C6 witness: a bound placeholder substitutes its value, an unbound
non-inherited name substitutes `undefined`, a caller context entry shadows
the computed `tileCol`, and the inherited name `valueOf` resolves to the
coerced inherited member while the non-inherited `zz` resolves to
nothing. -/
theorem C6_witness :
    substituteTemplate (fun k => if k = "a" then some "V" else none)
      ("\x7b" ++ "a" ++ "\x7d" ++ "t") =
      "V" ++ substituteTemplate
        (fun k => if k = "a" then some "V" else none) "t" ∧
    substituteTemplate (fun k => if k = "a" then some "V" else none)
      ("\x7b" ++ "zz" ++ "\x7d" ++ "t") =
      "undefined" ++ substituteTemplate
        (fun k => if k = "a" then some "V" else none) "t" ∧
    localContextLookup ⟨"0", 1, (0, 0), none, 1, 1, 256, 256⟩ 3 2
      [("tileCol", "X")] "tileCol" = some "X" ∧
    localContextLookup ⟨"0", 1, (0, 0), none, 1, 1, 256, 256⟩ 3 2
      [] "valueOf" = some (protoMemberString "valueOf") ∧
    localContextLookup ⟨"0", 1, (0, 0), none, 1, 1, 256, 256⟩ 3 2
      [] "zz" = none := by
  have h1 := C6_placeholder_substitution
    (fun k => if k = "a" then some "V" else none) "a" "t" "V"
    (by decide) (by decide)
  have h2 := C6_placeholder_substitution
    (fun k => if k = "a" then some "V" else none) "zz" "t" "V"
    (by decide) (by decide)
  refine ⟨h1.1 rfl, h2.2.1 rfl,
    h1.2.2.1 ⟨"0", 1, (0, 0), none, 1, 1, 256, 256⟩ 3 2
      [("tileCol", "X")] "tileCol" "X" rfl, ?_, ?_⟩
  · exact (h1.2.2.2 ⟨"0", 1, (0, 0), none, 1, 1, 256, 256⟩ 3 2 [] "valueOf"
      rfl (by decide) (by decide) (by decide)).1 (by decide)
  · exact (h1.2.2.2 ⟨"0", 1, (0, 0), none, 1, 1, 256, 256⟩ 3 2 [] "zz"
      rfl (by decide) (by decide) (by decide)).2 (by decide)

/-! ### Claims about tile-matrix-set parsing -/

/-- C7: when the resolved projection's axis-orientation string does not
begin with `en` (its first two characters, as taken by `substr(0, 2)`,
differ from `en`), every per-level origin of the parsed grid is the source
`pointOfOrigin` with its two components swapped; when it does begin with
`en`, every origin is stored unchanged. -/
theorem C7_axis_order_flip (getProjection : String → Option Projection)
    (tileMatrixSet : TileMatrixSet) (sourceInfo : SourceInfo)
    (tileUrlTemplate : String) (proj : Projection) (i : ℕ) (m : TileMatrix)
    (hp : resolveProjection getProjection tileMatrixSet sourceInfo =
      Except.ok proj)
    (hm : tileMatrixSet.tileMatrices[i]? = some m) :
    (proj.axisOrientation.data.take 2 ≠ "en".data →
      (parseTileMatrixSet getProjection tileMatrixSet sourceInfo
          tileUrlTemplate).toOption.map (fun info => info.grid.origins[i]?) =
        some (some (m.pointOfOrigin.2, m.pointOfOrigin.1))) ∧
    (proj.axisOrientation.data.take 2 = "en".data →
      (parseTileMatrixSet getProjection tileMatrixSet sourceInfo
          tileUrlTemplate).toOption.map (fun info => info.grid.origins[i]?) =
        some (some m.pointOfOrigin)) := by
  constructor
  · intro hbackwards
    simp [parseTileMatrixSet, Except.toOption, hp, List.getElem?_map, hm, bne_iff_ne, hbackwards]
  · intro hforwards
    simp [parseTileMatrixSet, Except.toOption, hp, List.getElem?_map, hm, hforwards]

/-- C7 witness: with orientation `ne` the origin `(1, 2)` is stored as
`(2, 1)`; with orientation `enu` it is stored unchanged. -/
theorem C7_witness :
    (parseTileMatrixSet (fun _ => none)
        ⟨"s", "c", [⟨"0", 1, (1, 2), none, 1, 1, 256, 256⟩]⟩
        ⟨"u", none, some ⟨"ne"⟩, []⟩ "t").toOption.map
      (fun info => info.grid.origins[0]?) = some (some ((2 : Int), (1 : Int))) ∧
    (parseTileMatrixSet (fun _ => none)
        ⟨"s", "c", [⟨"0", 1, (1, 2), none, 1, 1, 256, 256⟩]⟩
        ⟨"u", none, some ⟨"enu"⟩, []⟩ "t").toOption.map
      (fun info => info.grid.origins[0]?) = some (some ((1 : Int), (2 : Int))) :=
  ⟨(C7_axis_order_flip (fun _ => none)
      ⟨"s", "c", [⟨"0", 1, (1, 2), none, 1, 1, 256, 256⟩]⟩
      ⟨"u", none, some ⟨"ne"⟩, []⟩ "t" ⟨"ne"⟩ 0
      ⟨"0", 1, (1, 2), none, 1, 1, 256, 256⟩ rfl rfl).1 (by decide),
   (C7_axis_order_flip (fun _ => none)
      ⟨"s", "c", [⟨"0", 1, (1, 2), none, 1, 1, 256, 256⟩]⟩
      ⟨"u", none, some ⟨"enu"⟩, []⟩ "t" ⟨"enu"⟩ 0
      ⟨"0", 1, (1, 2), none, 1, 1, 256, 256⟩ rfl rfl).2 (by decide)⟩

/-- C8: a caller-supplied projection bypasses the registry entirely —
parsing does not depend on the registry function and cannot fail — and
parsing fails exactly when no override projection is supplied and the
registry returns nothing for the matrix set's CRS, in which case the error
is the unsupported-CRS message. -/
theorem C8_projection_resolution (g g' : String → Option Projection)
    (tileMatrixSet : TileMatrixSet) (sourceInfo : SourceInfo)
    (tileUrlTemplate : String) :
    (∀ proj, sourceInfo.projection = some proj →
      parseTileMatrixSet g tileMatrixSet sourceInfo tileUrlTemplate =
        parseTileMatrixSet g' tileMatrixSet sourceInfo tileUrlTemplate) ∧
    ((∃ e, parseTileMatrixSet g tileMatrixSet sourceInfo tileUrlTemplate =
        Except.error e) ↔
      sourceInfo.projection = none ∧ g tileMatrixSet.crs = none) ∧
    (sourceInfo.projection = none → g tileMatrixSet.crs = none →
      parseTileMatrixSet g tileMatrixSet sourceInfo tileUrlTemplate =
        Except.error ("Unsupported CRS: " ++ tileMatrixSet.crs)) := by
  refine ⟨?_, ?_, ?_⟩
  · intro proj hproj
    simp [parseTileMatrixSet, resolveProjection, hproj]
  · cases hproj : sourceInfo.projection with
    | some proj =>
      simp [parseTileMatrixSet, resolveProjection, hproj]
    | none =>
      cases hcrs : g tileMatrixSet.crs with
      | some proj =>
        simp [parseTileMatrixSet, resolveProjection, hproj, hcrs]
      | none =>
        simp [parseTileMatrixSet, resolveProjection, hproj, hcrs]
  · intro hproj hcrs
    simp [parseTileMatrixSet, resolveProjection, hproj, hcrs]

/-- C8 witness: with an override projection the result does not depend on
the registry; without one and with an empty registry, parsing fails with
the unsupported-CRS message. -/
theorem C8_witness :
    parseTileMatrixSet (fun _ => none) ⟨"s", "crs:84", []⟩
        ⟨"u", none, some ⟨"en"⟩, []⟩ "t" =
      parseTileMatrixSet (fun _ => some ⟨"ne"⟩) ⟨"s", "crs:84", []⟩
        ⟨"u", none, some ⟨"en"⟩, []⟩ "t" ∧
    parseTileMatrixSet (fun _ => none) ⟨"s", "crs:84", []⟩
        ⟨"u", none, none, []⟩ "t" =
      Except.error ("Unsupported CRS: " ++ "crs:84") :=
  ⟨(C8_projection_resolution (fun _ => none) (fun _ => some ⟨"ne"⟩)
      ⟨"s", "crs:84", []⟩ ⟨"u", none, some ⟨"en"⟩, []⟩ "t").1 ⟨"en"⟩ rfl,
   (C8_projection_resolution (fun _ => none) (fun _ => some ⟨"ne"⟩)
      ⟨"s", "crs:84", []⟩ ⟨"u", none, none, []⟩ "t").2.2 rfl rfl⟩

/-- C9: the four per-level arrays handed to the tile grid constructor all
have length `tileMatrices.length`, and the entry at index `i` of each is
derived from the tile matrix at index `i` (resolution from `cellSize`,
size from `matrixWidth`/`matrixHeight`, tile size from
`tileWidth`/`tileHeight`, origin from `pointOfOrigin`, possibly with its
components swapped). -/
theorem C9_parallel_arrays (getProjection : String → Option Projection)
    (tileMatrixSet : TileMatrixSet) (sourceInfo : SourceInfo)
    (tileUrlTemplate : String) (proj : Projection)
    (hp : resolveProjection getProjection tileMatrixSet sourceInfo =
      Except.ok proj) :
    (parseTileMatrixSet getProjection tileMatrixSet sourceInfo
        tileUrlTemplate).toOption.map
      (fun info => (info.grid.origins.length, info.grid.resolutions.length,
        info.grid.sizes.length, info.grid.tileSizes.length)) =
      some (tileMatrixSet.tileMatrices.length,
        tileMatrixSet.tileMatrices.length,
        tileMatrixSet.tileMatrices.length,
        tileMatrixSet.tileMatrices.length) ∧
    ∀ (i : ℕ) (m : TileMatrix), tileMatrixSet.tileMatrices[i]? = some m →
      (parseTileMatrixSet getProjection tileMatrixSet sourceInfo
          tileUrlTemplate).toOption.map
        (fun info => (info.grid.resolutions[i]?, info.grid.sizes[i]?,
          info.grid.tileSizes[i]?)) =
        some (some m.cellSize, some (m.matrixWidth, m.matrixHeight),
          some (m.tileWidth, m.tileHeight)) ∧
      ((parseTileMatrixSet getProjection tileMatrixSet sourceInfo
          tileUrlTemplate).toOption.map
          (fun info => info.grid.origins[i]?) = some (some m.pointOfOrigin) ∨
        (parseTileMatrixSet getProjection tileMatrixSet sourceInfo
          tileUrlTemplate).toOption.map
          (fun info => info.grid.origins[i]?) =
            some (some (m.pointOfOrigin.2, m.pointOfOrigin.1))) := by
  constructor
  · simp [parseTileMatrixSet, Except.toOption, hp]
  · intro i m hm
    constructor
    · simp [parseTileMatrixSet, Except.toOption, hp, List.getElem?_map, hm]
    · by_cases hb : proj.axisOrientation.data.take 2 = "en".data
      · left
        simp [parseTileMatrixSet, Except.toOption, hp, List.getElem?_map, hm, hb]
      · right
        simp [parseTileMatrixSet, Except.toOption, hp, List.getElem?_map, hm,
          bne_iff_ne, hb]

/-- C9 witness: a two-level matrix set yields arrays of length two whose
entries at index 1 come from the matrix at index 1. -/
theorem C9_witness :
    (parseTileMatrixSet (fun _ => none)
        ⟨"s", "c", [⟨"0", 8, (1, 2), none, 1, 1, 256, 256⟩,
          ⟨"1", 4, (1, 2), none, 2, 2, 512, 512⟩]⟩
        ⟨"u", none, some ⟨"en"⟩, []⟩ "t").toOption.map
      (fun info => (info.grid.origins.length, info.grid.resolutions.length,
        info.grid.sizes.length, info.grid.tileSizes.length)) =
      some (2, 2, 2, 2) ∧
    (parseTileMatrixSet (fun _ => none)
        ⟨"s", "c", [⟨"0", 8, (1, 2), none, 1, 1, 256, 256⟩,
          ⟨"1", 4, (1, 2), none, 2, 2, 512, 512⟩]⟩
        ⟨"u", none, some ⟨"en"⟩, []⟩ "t").toOption.map
      (fun info => (info.grid.resolutions[1]?, info.grid.sizes[1]?,
        info.grid.tileSizes[1]?)) =
      some (some (4 : Int), some ((2 : Int), (2 : Int)),
        some ((512 : Int), (512 : Int))) := by
  have h := C9_parallel_arrays (fun _ => none)
    ⟨"s", "c", [⟨"0", 8, (1, 2), none, 1, 1, 256, 256⟩,
      ⟨"1", 4, (1, 2), none, 2, 2, 512, 512⟩]⟩
    ⟨"u", none, some ⟨"en"⟩, []⟩ "t" ⟨"en"⟩ rfl
  exact ⟨h.1, (h.2 1 ⟨"1", 4, (1, 2), none, 2, 2, 512, 512⟩ rfl).1⟩

end OgcTileUtil
